import Mathlib

/-!
Verification of the SDS (Smart Digital Storage) tiering prototype.

Shallow embedding of the three Python source files:
  * `sds_data_classification.py` — usage-frequency evaluation and
    tier classification (`Artifact.get_usage_frequency`,
    `SDSClassifier.classify_and_assign`);
  * `sds_scalability_test.py` — the capacity-aware
    `StorageResourceManager` (`add_artifact`, `adjust_resources`);
  * `sds_retrieval_performance_test.py` — the concurrency-limited
    `StorageBackend.retrieve_artifact`.

Modelling conventions:
  * Python float quantities (sizes, capacities, the 0.8 threshold and the
    0.5 growth factor, latencies) are modelled as exact rationals (`ℚ`):
    0.8 is `4/5`, 0.5 is `1/2`.  Every claim settled below is insensitive
    to the tiny float-vs-rational gap of the literal `0.8` (the one
    boundary case exercised, 80 vs 80, falls on the same side in both
    arithmetics: `80 > 80.00000000000001` and `80 > 80` are both false).
  * Timestamps are modelled at day granularity (`ℤ`), matching the
    `timedelta.days` computation the classification file performs.
  * Python dicts keyed by the finite enums are modelled as functions out
    of the enum; dict mutation is `Function.update`.
  * The asyncio lock makes the admission check-and-increment and the
    decrement of `current_requests` atomic; they are modelled as atomic
    events.  A fault in the latency step (step 3/4 of the protocol) is an
    explicit boolean input `faulty`; the `try/finally` release is the
    unconditional decrement in both the success and the fault branch.
  * `random.uniform(0.9, 1.1)` is an injected `jitter : ℚ` input.
-/

namespace SDS

/-- `UsageFrequency` enum (`HIGH/MEDIUM/LOW`). -/
inductive UsageFrequency where
  | high
  | medium
  | low
deriving DecidableEq, Fintype

/-- `ArtifactType` enum (`PHOTOGRAPH/DOCUMENT/VIDEO`). -/
inductive ArtifactType where
  | photograph
  | document
  | video
deriving DecidableEq, Fintype

/-- `Importance` enum (`CRITICAL/STANDARD/LOW`). -/
inductive Importance where
  | critical
  | standard
  | low
deriving DecidableEq, Fintype

/-- `StorageTier` enum (`HOT/WARM/COLD`). -/
inductive StorageTier where
  | hot
  | warm
  | cold
deriving DecidableEq, Fintype

/-! ## Usage evaluation (`Artifact.get_usage_frequency`) -/

/-- The body of `Artifact.get_usage_frequency`, with the elapsed-days
computation `(now - last_accessed).days` factored out as the argument
`days_since_access`:

    if days_since_access > 30: return LOW
    if access_count > 10: return HIGH
    elif access_count >= 1: return MEDIUM
    return LOW
-/
def get_usage_frequency (access_count : ℤ) (days_since_access : ℤ) : UsageFrequency :=
  if days_since_access > 30 then .low
  else if access_count > 10 then .high
  else if access_count ≥ 1 then .medium
  else .low

/-- The usage evaluator `evaluate(access_count, last_accessed, now)`:
timestamps are day-granularity integers, so `now - last_accessed` is the
`days_since_access` of the source. -/
def evaluate (access_count : ℤ) (last_accessed now : ℤ) : UsageFrequency :=
  get_usage_frequency access_count (now - last_accessed)

/-- The `Artifact` dataclass.  `last_accessed` is a day-granularity
timestamp. -/
structure Artifact where
  id : String
  name : String
  type : ArtifactType
  access_count : ℤ
  last_accessed : ℤ
  importance : Importance

/-! ## Tier classification (`SDSClassifier.classify_and_assign`) -/

/-- The tier decision of `classify_and_assign`, as a function of the
importance and the already-computed usage frequency:

    if importance == CRITICAL or usage == HIGH: return HOT
    elif usage == MEDIUM or importance == STANDARD: return WARM
    else: return COLD
-/
def classifyTier (importance : Importance) (usage : UsageFrequency) : StorageTier :=
  if importance = .critical ∨ usage = .high then .hot
  else if usage = .medium ∨ importance = .standard then .warm
  else .cold

/-- Specification-worded classifier, written from the spec's first-match
decision table (Critical/any → Hot; any/High → Hot; Standard/Medium → Warm;
any/Medium → Warm; Standard/any → Warm; otherwise Cold), to be compared
with the source's `classifyTier`. -/
def classifySpecTier : Importance → UsageFrequency → StorageTier
  | .critical, _ => .hot
  | _, .high => .hot
  | .standard, .medium => .warm
  | _, .medium => .warm
  | .standard, _ => .warm
  | _, _ => .cold

/-- `SDSClassifier.classify_and_assign`, with the ambient clock passed
explicitly. -/
def classify_and_assign (now : ℤ) (a : Artifact) : StorageTier :=
  let usage := evaluate a.access_count a.last_accessed now
  if a.importance = .critical ∨ usage = .high then .hot
  else if usage = .medium ∨ a.importance = .standard then .warm
  else .cold

/-! ## Storage resource manager (`sds_scalability_test.py`) -/

/-- The mutable state of `StorageResourceManager`: the three dicts
`capacities`, `usage` and `artifact_sizes`, modelled as functions out of
the finite enums. -/
structure StorageResourceManager where
  capacities : StorageTier → ℚ
  usage : StorageTier → ℚ
  artifact_sizes : ArtifactType → ℚ

/-- `StorageResourceManager.__init__`: Hot 100, Warm 500, Cold 1000 units
of capacity, zero usage, sizes Photograph 1, Document 0.5, Video 5. -/
def initManager : StorageResourceManager where
  capacities := fun t => match t with
    | .hot => 100
    | .warm => 500
    | .cold => 1000
  usage := fun _ => 0
  artifact_sizes := fun ty => match ty with
    | .photograph => 1
    | .document => 1/2
    | .video => 5

/-- `adjust_resources`: `increase = capacities[tier] * 0.5;
capacities[tier] += increase` (the print is I/O, dropped). -/
def adjust_resources (m : StorageResourceManager) (tier : StorageTier) :
    StorageResourceManager :=
  { m with capacities := Function.update m.capacities tier (m.capacities tier + m.capacities tier * (1/2)) }

/-- `add_artifact`: look up the size, scale if the 80% threshold would be
crossed, then commit if the (possibly scaled) capacity admits the
artifact.  Returns the success boolean together with the new state. -/
def add_artifact (m : StorageResourceManager) (ty : ArtifactType)
    (tier : StorageTier) : Bool × StorageResourceManager :=
  let size := m.artifact_sizes ty
  let m1 := if m.usage tier + size > m.capacities tier * (4/5)
            then adjust_resources m tier else m
  if m1.usage tier + size ≤ m1.capacities tier then
    (true, { m1 with usage := Function.update m1.usage tier (m1.usage tier + size) })
  else
    (false, m1)

/-- A sequence of `add_artifact` calls, run left to right. -/
def runPlacements (m : StorageResourceManager) :
    List (ArtifactType × StorageTier) → StorageResourceManager
  | [] => m
  | r :: rest => runPlacements (add_artifact m r.1 r.2).2 rest

/-! ## Retrieval admission controller (`sds_retrieval_performance_test.py`) -/

/-- Tier base latencies of `StorageBackend.__init__`: Hot 0.010 s,
Warm 0.050 s, Cold 0.200 s. -/
def latencies : StorageTier → ℚ
  | .hot => 1/100
  | .warm => 1/20
  | .cold => 1/5

/-- The admission-relevant state of `StorageBackend`. -/
structure StorageBackend where
  max_concurrent_requests : ℕ
  current_requests : ℕ

/-- Outcome of one `retrieve_artifact` call: the overload rejection, a
successful return of the computed latency, or a fault raised during the
latency step (whose exception propagates past the `finally`). -/
inductive RetrieveResult where
  | overloaded
  | ok (latency : ℚ)
  | fault
deriving DecidableEq

/-- One `retrieve_artifact(artifact_id, tier)` call.  `jitter` is the
injected `random.uniform(0.9, 1.1)` draw; `faulty` injects a fault in the
latency step (step 3/4).  Besides the result and the post state, the call
returns the list of values `current_requests` takes at the observable
instants of the call (after each lock-protected update).  The final
decrement is the `finally` block: it runs in the success branch and in the
fault branch alike. -/
def retrieve_artifact (b : StorageBackend) (tier : StorageTier)
    (jitter : ℚ) (faulty : Bool) :
    RetrieveResult × StorageBackend × List ℕ :=
  if b.max_concurrent_requests ≤ b.current_requests then
    (.overloaded, b, [b.current_requests])
  else
    let c1 := b.current_requests + 1
    let res := if faulty then RetrieveResult.fault
               else RetrieveResult.ok (latencies tier * jitter)
    (res, { b with current_requests := c1 - 1 }, [c1, c1 - 1])

/-- Atomic events on the shared `current_requests` counter under
interleaved `retrieve_artifact` calls: `tryStart` is the lock-protected
check-and-increment (a no-op rejection when the ceiling is reached);
`finish` is the lock-protected `finally` decrement of an admitted call. -/
inductive AdmEvent where
  | tryStart
  | finish
deriving DecidableEq

/-- Effect of one atomic event on the counter. -/
def admStep (maxConc c : ℕ) : AdmEvent → ℕ
  | .tryStart => if c < maxConc then c + 1 else c
  | .finish => c - 1

/-- The counter after a schedule of atomic events. -/
def admRun (maxConc : ℕ) (c : ℕ) : List AdmEvent → ℕ
  | [] => c
  | e :: rest => admRun maxConc (admStep maxConc c e) rest

/-! ## Auxiliary definitions for the proofs -/

/-- The resource-manager invariant: every tier's capacity is non-negative
and its usage is within capacity. -/
def Inv (m : StorageResourceManager) : Prop :=
  ∀ t, 0 ≤ m.capacities t ∧ m.usage t ≤ m.capacities t

/-- The manager of the spec's Scenario D: the initial manager with the
Hot tier's usage set to 75 (capacity still 100). -/
def scenarioD : StorageResourceManager :=
  { initManager with usage := Function.update initManager.usage .hot 75 }

/-- A manager configured with a small Hot capacity of 3 units (capacity
is part of the configuration surface), used to exercise the failure path
of `add_artifact` with the scaling threshold tripped. -/
def smallHotManager : StorageResourceManager :=
  { initManager with capacities := Function.update initManager.capacities .hot 3 }

/-! ## Helper lemmas -/

/-- Every usage frequency is one of the three enum values. -/
theorem usage_total (u : UsageFrequency) : u = .high ∨ u = .medium ∨ u = .low := by
  cases u <;> simp

/-- The initial manager satisfies the invariant. -/
theorem inv_init : Inv initManager := by
  intro t
  cases t <;> norm_num [initManager]

/-- Scaling preserves the invariant. -/
theorem inv_adjust (m : StorageResourceManager) (t : StorageTier) (h : Inv m) :
    Inv (adjust_resources m t) := by
  intro u
  rcases h u with ⟨h0, h1⟩
  by_cases hu : u = t
  · subst hu
    refine ⟨by simp [adjust_resources]; linarith, by simp [adjust_resources]; linarith⟩
  · simpa [adjust_resources, Function.update_noteq hu] using ⟨h0, h1⟩

/-- Committing an admitted placement preserves the invariant. -/
theorem inv_commit (m : StorageResourceManager) (t : StorageTier) (s : ℚ) (h : Inv m)
    (hle : m.usage t + s ≤ m.capacities t) :
    Inv { m with usage := Function.update m.usage t (m.usage t + s) } := by
  intro u
  by_cases hu : u = t
  · subst hu
    exact ⟨(h u).1, by simpa using hle⟩
  · simpa [Function.update_noteq hu] using h u

/-- `add_artifact` preserves the invariant on every branch. -/
theorem inv_add (m : StorageResourceManager) (ty : ArtifactType) (t : StorageTier)
    (h : Inv m) : Inv (add_artifact m ty t).2 := by
  simp only [add_artifact]
  split_ifs with hc hle hle2
  · exact inv_commit _ t _ (inv_adjust m t h) hle
  · exact inv_adjust m t h
  · exact inv_commit _ t _ h hle2
  · exact h

/-- Any sequence of placements preserves the invariant. -/
theorem inv_run (m : StorageResourceManager) (h : Inv m) :
    ∀ reqs : List (ArtifactType × StorageTier), Inv (runPlacements m reqs)
  | [] => h
  | r :: rest => inv_run _ (inv_add m r.1 r.2 h) rest

/-- `adjust_resources` multiplies the scaled tier's capacity by exactly 3/2. -/
theorem adjust_cap_self (m : StorageResourceManager) (t : StorageTier) :
    (adjust_resources m t).capacities t = (3/2) * m.capacities t := by
  simp [adjust_resources]; ring

/-- The post-call capacity of the target tier: scaled by half exactly when
the 80% threshold condition of line 89 holds, unchanged otherwise. -/
theorem add_cap_eq (m : StorageResourceManager) (ty : ArtifactType) (t : StorageTier) :
    (add_artifact m ty t).2.capacities t =
      if m.usage t + m.artifact_sizes ty > m.capacities t * (4/5)
      then m.capacities t + m.capacities t * (1/2) else m.capacities t := by
  simp only [add_artifact]
  split_ifs with hc h1 h2 <;> simp_all [adjust_resources]

/-- `add_artifact` succeeds exactly when the artifact fits under the
post-scaling capacity: the admission check runs after any scaling. -/
theorem add_succ_iff (m : StorageResourceManager) (ty : ArtifactType) (t : StorageTier) :
    (add_artifact m ty t).1 = true ↔
      m.usage t + m.artifact_sizes ty ≤ (add_artifact m ty t).2.capacities t := by
  simp only [add_artifact]
  split_ifs with hc h1 h2 <;> simp_all [adjust_resources]

/-- Tiers other than the target are untouched by `add_artifact`. -/
theorem add_frame (m : StorageResourceManager) (ty : ArtifactType) (tier : StorageTier)
    (u : StorageTier) (hu : u ≠ tier) :
    (add_artifact m ty tier).2.capacities u = m.capacities u ∧
    (add_artifact m ty tier).2.usage u = m.usage u := by
  simp only [add_artifact]
  split_ifs with hc h1 h2 <;>
    simp_all [adjust_resources, Function.update_noteq hu]

/-- The per-type size table is untouched by `add_artifact`. -/
theorem add_sizes (m : StorageResourceManager) (ty : ArtifactType) (tier : StorageTier) :
    (add_artifact m ty tier).2.artifact_sizes = m.artifact_sizes := by
  simp only [add_artifact]
  split_ifs <;> rfl

/-- One `add_artifact` call never decreases any tier's capacity (given
non-negative capacities). -/
theorem add_cap_mono (m : StorageResourceManager) (ty : ArtifactType) (tier : StorageTier)
    (h : Inv m) (t : StorageTier) :
    m.capacities t ≤ (add_artifact m ty tier).2.capacities t := by
  by_cases ht : t = tier
  · subst ht
    rw [add_cap_eq]
    split_ifs with hc
    · have h0 := (h t).1
      linarith
    · exact le_rfl
  · rw [(add_frame m ty tier t ht).1]

/-- Running an appended request list is running the two lists in turn. -/
theorem runPlacements_append (m : StorageResourceManager)
    (xs ys : List (ArtifactType × StorageTier)) :
    runPlacements m (xs ++ ys) = runPlacements (runPlacements m xs) ys := by
  induction xs generalizing m with
  | nil => rfl
  | cons r rest ih =>
      simpa only [List.cons_append, runPlacements] using ih (add_artifact m r.1 r.2).2

/-- Capacities never decrease along a run of placements. -/
theorem run_cap_mono (m : StorageResourceManager) (h : Inv m) (t : StorageTier) :
    ∀ reqs : List (ArtifactType × StorageTier),
      m.capacities t ≤ (runPlacements m reqs).capacities t
  | [] => le_rfl
  | r :: rest =>
      le_trans (add_cap_mono m r.1 r.2 h t)
        (run_cap_mono _ (inv_add m r.1 r.2 h) t rest)

/-- A failed `add_artifact` call leaves the usage dict untouched. -/
theorem add_usage_eq_of_fail (m : StorageResourceManager) (ty : ArtifactType)
    (tier : StorageTier) (hfail : (add_artifact m ty tier).1 = false) :
    (add_artifact m ty tier).2.usage = m.usage := by
  revert hfail
  simp only [add_artifact]
  split_ifs with hc h1 h2 <;> simp [adjust_resources]

/-- One atomic event keeps the admission counter within the ceiling. -/
theorem admStep_le (maxConc c : ℕ) (h : c ≤ maxConc) (e : AdmEvent) :
    admStep maxConc c e ≤ maxConc := by
  cases e with
  | tryStart =>
      simp only [admStep]
      split_ifs <;> omega
  | finish =>
      simp only [admStep]
      omega

/-- Any schedule of atomic events keeps the counter within the ceiling. -/
theorem admRun_le (maxConc c : ℕ) (h : c ≤ maxConc) :
    ∀ evs : List AdmEvent, admRun maxConc c evs ≤ maxConc
  | [] => h
  | e :: rest => admRun_le maxConc _ (admStep_le maxConc c h e) rest

/-- `retrieve_artifact` restores the backend state on every exit path:
the rejection path never touches it, and the `finally` decrement undoes
the admission increment both on success and on a fault. -/
theorem retrieve_final (b : StorageBackend) (tier : StorageTier) (jitter : ℚ)
    (faulty : Bool) :
    (retrieve_artifact b tier jitter faulty).2.1 = b := by
  simp only [retrieve_artifact]
  split_ifs <;> simp

/-- The counter values observable during one `retrieve_artifact` call. -/
theorem retrieve_trace (b : StorageBackend) (tier : StorageTier) (jitter : ℚ)
    (faulty : Bool) :
    (retrieve_artifact b tier jitter faulty).2.2 =
      if b.max_concurrent_requests ≤ b.current_requests
      then [b.current_requests]
      else [b.current_requests + 1, b.current_requests] := by
  simp only [retrieve_artifact]
  split_ifs <;> simp

/-- The call is rejected as overloaded exactly when the counter is at or
above the ceiling at admission time. -/
theorem retrieve_overloaded_iff (b : StorageBackend) (tier : StorageTier) (jitter : ℚ)
    (faulty : Bool) :
    (retrieve_artifact b tier jitter faulty).1 = .overloaded ↔
      b.max_concurrent_requests ≤ b.current_requests := by
  simp only [retrieve_artifact]
  split_ifs with h <;> simp [h]

/-! ## The claims -/

/-- C1: for every sequence of `place` (`add_artifact`) calls on a Storage
Resource Manager starting from its initial state, and for every tier, the
invariant `used[tier] <= capacity[tier]` holds after every call (every
prefix of the call sequence is itself a quantified sequence, so the bound
holds at every observable point). -/
theorem C1_place_capacity_invariant :
    ∀ (reqs : List (ArtifactType × StorageTier)) (t : StorageTier),
      (runPlacements initManager reqs).usage t ≤
        (runPlacements initManager reqs).capacities t :=
  fun reqs t => (inv_run initManager inv_init reqs t).2

/-- C2: under any interleaving of the atomic admission events of
concurrent `retrieve_artifact` calls started from an idle backend, the
in-flight counter never exceeds the ceiling; moreover a single
`retrieve_artifact` call — completed, faulted during the latency step, or
rejected — returns the counter to its pre-call value (the increment is
matched by exactly one `finally` decrement on every exit path), and every
counter value observable during the call stays within the ceiling. -/
theorem C2_admission_bound_and_paired_release
    (maxConc : ℕ) (evs : List AdmEvent) (b : StorageBackend)
    (tier : StorageTier) (jitter : ℚ) (faulty : Bool)
    (h : b.current_requests ≤ b.max_concurrent_requests) :
    admRun maxConc 0 evs ≤ maxConc ∧
    (retrieve_artifact b tier jitter faulty).2.1.current_requests = b.current_requests ∧
    ∀ x ∈ (retrieve_artifact b tier jitter faulty).2.2,
      x ≤ b.max_concurrent_requests := by
  refine ⟨admRun_le maxConc 0 (Nat.zero_le _) evs, ?_, ?_⟩
  · rw [retrieve_final]
  · rw [retrieve_trace]
    split_ifs with hover <;> intro x hx <;> simp only [List.mem_cons,
      List.mem_singleton, List.not_mem_nil, or_false] at hx <;> omega

/-- C2 witness: the theorem applied to the schedule
`[tryStart, tryStart, tryStart, finish]` with ceiling 2 and to one faulted
call on the idle default backend. -/
theorem C2_admission_bound_witness :
    admRun 2 0 [AdmEvent.tryStart, AdmEvent.tryStart, AdmEvent.tryStart,
      AdmEvent.finish] ≤ 2 ∧
    (retrieve_artifact ⟨1000, 0⟩ StorageTier.hot 1 true).2.1.current_requests = 0 ∧
    (1 : ℕ) ≤ 1000 :=
  have h := C2_admission_bound_and_paired_release 2
    [AdmEvent.tryStart, AdmEvent.tryStart, AdmEvent.tryStart, AdmEvent.finish]
    ⟨1000, 0⟩ StorageTier.hot 1 true (Nat.zero_le _)
  ⟨h.1, h.2.1, h.2.2 1 (by simp [retrieve_artifact])⟩

/-- C3 (amended): `place` invokes `scale(tier)` exactly when
`used[tier] + size > 0.8 * capacity[tier]`, and the commit check runs
against the post-scaling capacity.  The claim's Scenario D instance is
false on the code: placing a Video of size 5 into a tier with capacity
100 and used 75 does NOT trigger a scale, because `75 + 5 > 80` fails
(80 is not greater than 80); the placement succeeds with capacity still
100 and used 80. -/
theorem C3_scale_condition_and_scenarioD :
    (∀ (m : StorageResourceManager) (ty : ArtifactType) (t : StorageTier),
        (add_artifact m ty t).2.capacities t =
          if m.usage t + m.artifact_sizes ty > m.capacities t * (4/5)
          then m.capacities t + m.capacities t * (1/2) else m.capacities t) ∧
    (∀ (m : StorageResourceManager) (ty : ArtifactType) (t : StorageTier),
        ((add_artifact m ty t).1 = true ↔
          m.usage t + m.artifact_sizes ty ≤ (add_artifact m ty t).2.capacities t)) ∧
    (add_artifact scenarioD .video .hot).1 = true ∧
    (add_artifact scenarioD .video .hot).2.capacities .hot = 100 ∧
    (add_artifact scenarioD .video .hot).2.usage .hot = 80 :=
  ⟨add_cap_eq, add_succ_iff,
    by norm_num [add_artifact, adjust_resources, scenarioD, initManager],
    by norm_num [add_artifact, adjust_resources, scenarioD, initManager],
    by norm_num [add_artifact, adjust_resources, scenarioD, initManager]⟩

/-- C3 counterexample: in Scenario D (Hot capacity 100, used 75, Video of
size 5) the scale condition `75 + 5 > 0.8 * 100` is false, and the
post-call capacity is 100, not the 150 the claim asserts. -/
theorem C3_scenarioD_counterexample :
    ¬ (scenarioD.usage .hot + scenarioD.artifact_sizes .video >
        scenarioD.capacities .hot * (4/5)) ∧
    (add_artifact scenarioD .video .hot).2.capacities .hot = 100 ∧
    (add_artifact scenarioD .video .hot).2.capacities .hot ≠ 150 :=
  ⟨by norm_num [scenarioD, initManager],
    by norm_num [add_artifact, adjust_resources, scenarioD, initManager],
    by norm_num [add_artifact, adjust_resources, scenarioD, initManager]⟩

/-- C4 (amended): a failed `place` (`add_artifact`) call leaves
`used[tier]` unchanged for every tier and `capacity` unchanged for every
tier other than the target; the target tier's capacity is either
unchanged or — when the 80% threshold tripped before the failing
admission check — increased by 50%, and the size table is unchanged. -/
theorem C4_failure_effect (m : StorageResourceManager) (ty : ArtifactType)
    (tier : StorageTier) (hfail : (add_artifact m ty tier).1 = false) :
    (add_artifact m ty tier).2.usage = m.usage ∧
    (∀ u, u ≠ tier → (add_artifact m ty tier).2.capacities u = m.capacities u) ∧
    ((add_artifact m ty tier).2.capacities tier = m.capacities tier ∨
      (add_artifact m ty tier).2.capacities tier =
        m.capacities tier + m.capacities tier * (1/2)) ∧
    (add_artifact m ty tier).2.artifact_sizes = m.artifact_sizes := by
  refine ⟨add_usage_eq_of_fail m ty tier hfail,
    fun u hu => (add_frame m ty tier u hu).1, ?_, add_sizes m ty tier⟩
  rw [add_cap_eq]
  split_ifs with hc
  · exact Or.inr rfl
  · exact Or.inl rfl

/-- C4 witness: the amended claim applied to the failing call on the
manager configured with Hot capacity 3. -/
theorem C4_failure_effect_witness :
    (add_artifact smallHotManager .video .hot).2.usage = smallHotManager.usage ∧
    (add_artifact smallHotManager .video .hot).2.capacities .warm =
      smallHotManager.capacities .warm ∧
    ((add_artifact smallHotManager .video .hot).2.capacities .hot =
        smallHotManager.capacities .hot ∨
      (add_artifact smallHotManager .video .hot).2.capacities .hot =
        smallHotManager.capacities .hot + smallHotManager.capacities .hot * (1/2)) ∧
    (add_artifact smallHotManager .video .hot).2.artifact_sizes =
      smallHotManager.artifact_sizes :=
  have h := C4_failure_effect smallHotManager .video .hot
    (by norm_num [add_artifact, adjust_resources, smallHotManager, initManager])
  ⟨h.1, h.2.1 .warm (by decide), h.2.2.1, h.2.2.2⟩

/-- C4 counterexample: on a manager with Hot capacity 3 and usage 0,
placing a Video (size 5) trips the threshold, scales capacity to 4.5,
and then fails the admission check — so the failed call returns with the
Hot capacity changed from 3 to 4.5, refuting "failure leaves the state
unchanged". -/
theorem C4_failed_call_changes_capacity :
    (add_artifact smallHotManager .video .hot).1 = false ∧
    smallHotManager.capacities .hot = 3 ∧
    (add_artifact smallHotManager .video .hot).2.capacities .hot = 9/2 ∧
    (add_artifact smallHotManager .video .hot).2.capacities .hot ≠
      smallHotManager.capacities .hot :=
  ⟨by norm_num [add_artifact, adjust_resources, smallHotManager, initManager],
    by norm_num [smallHotManager, initManager],
    by norm_num [add_artifact, adjust_resources, smallHotManager, initManager],
    by norm_num [add_artifact, adjust_resources, smallHotManager, initManager]⟩

/-- C5: the tier classifier agrees with the spec's decision table
(Hot if importance is Critical or usage is High; otherwise Warm if usage
is Medium or importance is Standard; otherwise Cold); consequently
Critical importance always yields Hot, High usage always yields Hot, a
Standard-importance artifact is never Cold, and classification — also at
the `classify_and_assign` entry point — is a pure, deterministic function
of its inputs. -/
theorem C5_classifier_decision :
    (∀ (i : Importance) (u : UsageFrequency), classifyTier i u = classifySpecTier i u) ∧
    (∀ u, classifyTier .critical u = .hot) ∧
    (∀ i, classifyTier i .high = .hot) ∧
    (∀ u, classifyTier .standard u ≠ .cold) ∧
    (∀ (now : ℤ) (a : Artifact),
        classify_and_assign now a =
          classifyTier a.importance (evaluate a.access_count a.last_accessed now)) ∧
    (∀ (now : ℤ) (a : Artifact), classify_and_assign now a = classify_and_assign now a) :=
  ⟨by decide, by decide, by decide, by decide, fun _ _ => rfl, fun _ _ => rfl⟩

/-- C6: for every non-negative access count and any timestamps, the usage
evaluator is total with range {High, Medium, Low} and applies the claimed
precedence: recency beyond 30 days forces Low regardless of the count;
otherwise more than 10 accesses give High, at least 1 gives Medium, and
zero gives Low. -/
theorem C6_usage_evaluator_precedence (access_count last_accessed now : ℤ)
    (h : 0 ≤ access_count) :
    (evaluate access_count last_accessed now = .high ∨
     evaluate access_count last_accessed now = .medium ∨
     evaluate access_count last_accessed now = .low) ∧
    (30 < now - last_accessed → evaluate access_count last_accessed now = .low) ∧
    (now - last_accessed ≤ 30 → 10 < access_count →
      evaluate access_count last_accessed now = .high) ∧
    (now - last_accessed ≤ 30 → access_count ≤ 10 → 1 ≤ access_count →
      evaluate access_count last_accessed now = .medium) ∧
    (now - last_accessed ≤ 30 → access_count < 1 →
      evaluate access_count last_accessed now = .low) := by
  refine ⟨usage_total _, ?_, ?_, ?_, ?_⟩ <;>
    intros <;>
    unfold evaluate get_usage_frequency <;>
    split_ifs <;>
    first
      | rfl
      | (exfalso; omega)

/-- C6 witness: the recency rule at access count 15, last accessed 40
days before now. -/
theorem C6_usage_evaluator_witness : evaluate 15 0 40 = UsageFrequency.low :=
  (C6_usage_evaluator_precedence 15 0 40 (by decide)).2.1 (by decide)

/-- C7 (amended): the usage evaluator does not reject a negative access
count; it silently classifies every such input as Low (a negative count
falls through both count thresholds, and the stale-recency branch is Low
as well). -/
theorem C7_negative_count_classified_low (access_count : ℤ)
    (h : access_count < 0) (last_accessed now : ℤ) :
    evaluate access_count last_accessed now = .low := by
  unfold evaluate get_usage_frequency
  split_ifs <;>
    first
      | rfl
      | (exfalso; omega)

/-- C7 witness: the amended claim at access count -3. -/
theorem C7_negative_count_witness : evaluate (-3) 0 0 = UsageFrequency.low :=
  C7_negative_count_classified_low (-3) (by decide) 0 0

/-- C7 counterexample: at access count -5 (recent access) the evaluator
returns the usage-frequency classification Low — it does not reject the
input with an error, contradicting the claim that negative counts are
rejected rather than classified. -/
theorem C7_negative_count_not_rejected : evaluate (-5) 0 0 = UsageFrequency.low := by
  decide

/-- C8: `scale(tier)` (`adjust_resources`) sets the scaled tier's
capacity to exactly 1.5 times its prior value, and across any sequence of
manager operations started from the initial state no tier's capacity ever
decreases. -/
theorem C8_scaling_exact_and_monotone :
    (∀ (m : StorageResourceManager) (t : StorageTier),
        (adjust_resources m t).capacities t = (3/2) * m.capacities t) ∧
    (∀ (reqs more : List (ArtifactType × StorageTier)) (t : StorageTier),
        (runPlacements initManager reqs).capacities t ≤
          (runPlacements initManager (reqs ++ more)).capacities t) :=
  ⟨adjust_cap_self, fun reqs more t => by
    rw [runPlacements_append]
    exact run_cap_mono _ (inv_run _ inv_init reqs) t more⟩

/-- C9: `retrieve_artifact` fails with the overload error exactly when
the in-flight counter is at or above the ceiling at admission time; the
backend state returned by the call equals the pre-call state (so in
particular a rejected call leaves the counter untouched), and a rejected
call's only observable counter value is the unchanged pre-call value. -/
theorem C9_overload_iff_at_capacity (b : StorageBackend) (tier : StorageTier)
    (jitter : ℚ) (faulty : Bool) :
    ((retrieve_artifact b tier jitter faulty).1 = .overloaded ↔
      b.max_concurrent_requests ≤ b.current_requests) ∧
    (retrieve_artifact b tier jitter faulty).2.1 = b ∧
    (retrieve_artifact b tier jitter faulty).2.2 =
      (if b.max_concurrent_requests ≤ b.current_requests
       then [b.current_requests]
       else [b.current_requests + 1, b.current_requests]) :=
  ⟨retrieve_overloaded_iff b tier jitter faulty,
    retrieve_final b tier jitter faulty,
    retrieve_trace b tier jitter faulty⟩

/-- C10: one `place` (`add_artifact`) call for target tier `t` modifies
at most `used[t]` and `capacity[t]`: every other tier's usage and
capacity, and the per-type size table, are unchanged. -/
theorem C10_place_frame (m : StorageResourceManager) (ty : ArtifactType)
    (t u : StorageTier) (hu : u ≠ t) :
    (add_artifact m ty t).2.usage u = m.usage u ∧
    (add_artifact m ty t).2.capacities u = m.capacities u ∧
    (add_artifact m ty t).2.artifact_sizes = m.artifact_sizes :=
  ⟨(add_frame m ty t u hu).2, (add_frame m ty t u hu).1, add_sizes m ty t⟩

/-- C10 witness: the frame property for a Photograph placed into Hot,
observed at the Warm tier of the initial manager. -/
theorem C10_place_frame_witness :
    (add_artifact initManager .photograph .hot).2.usage .warm =
      initManager.usage .warm ∧
    (add_artifact initManager .photograph .hot).2.capacities .warm =
      initManager.capacities .warm ∧
    (add_artifact initManager .photograph .hot).2.artifact_sizes =
      initManager.artifact_sizes :=
  C10_place_frame initManager .photograph .hot .warm (by decide)

end SDS
